import Mathlib

/-!
Shallow embedding of the Crypto Crash game server (server/server.js) and
proofs about the claims of its specification.

The embedding models the server's mutable global `gameState` as a `GameState`
structure, the JavaScript `Map`s `players` and `cashedOut` as association
lists, and JavaScript numbers as exact rationals (`ℚ`).  The one place where
IEEE-754 special values matter — the crash-point formula divides by zero when
`randomValue = 1`, producing `+Infinity` in JavaScript — is modelled by the
two-constructor type `JsNum` whose `inf` constructor follows the IEEE rules
for `Math.max` / `Math.min` / multiplication by a positive constant.

Durable-store (MongoDB) writes in the source are wrapped in `try/catch`
blocks that only log failures; they are modelled by `Bool` parameters
(`debitPersisted`, `creditPersisted`, ...) recording whether the write
succeeded, which — faithfully to the source — do not influence the result.
-/

namespace CryptoCrash

/-- The supported crypto assets (server.js:278 restricts to BTC and ETH). -/
inductive Crypto where
  | BTC
  | ETH
deriving DecidableEq, Repr

/-- A JavaScript number restricted to the values arising in
`generateCrashPoint`: either a finite (exact) rational or `+Infinity`. -/
inductive JsNum where
  | fin (q : ℚ)
  | inf
deriving DecidableEq, Repr

/-- JavaScript `1 / x` for `x ≥ 0`: division by zero yields `+Infinity`
(server.js:90 computes `1 / (1 - randomValue)`). -/
def jsRecip (x : ℚ) : JsNum :=
  if x = 0 then JsNum.inf else JsNum.fin (1 / x)

/-- Multiplication by a positive finite constant; `Infinity * c = Infinity`. -/
def JsNum.mulC (x : JsNum) (c : ℚ) : JsNum :=
  match x with
  | JsNum.fin q => JsNum.fin (q * c)
  | JsNum.inf => JsNum.inf

/-- JavaScript `Math.max(c, x)` for a finite constant `c`:
`Math.max(c, Infinity) = Infinity`. -/
def JsNum.maxC (x : JsNum) (c : ℚ) : JsNum :=
  match x with
  | JsNum.fin q => JsNum.fin (max c q)
  | JsNum.inf => JsNum.inf

/-- JavaScript `Math.min(x, c)` for a finite constant `c`:
`Math.min(Infinity, c) = c`, so the result is always finite. -/
def JsNum.minC (x : JsNum) (c : ℚ) : ℚ :=
  match x with
  | JsNum.fin q => min q c
  | JsNum.inf => c

/-- server.js:89 — `randomValue = parseInt(hash.substring(0, 8), 16) / 0xffffffff`.
`h` is the 32-bit integer read from the first four bytes of `SHA-256(seed)`;
the hash itself is treated as an uninterpreted function of the seed, so `h`
ranges over all values `0 ≤ h ≤ 0xffffffff`. -/
def randomValue (h : ℕ) : ℚ :=
  (h : ℚ) / 4294967295

/-- server.js:90-91 — the crash point computed from the 32-bit hash prefix `h`:
`crashPoint = Math.max(1.01, (1 / (1 - randomValue)) * 0.99)` followed by
`Math.min(crashPoint, 100)`. -/
def generateCrashPoint (h : ℕ) : ℚ :=
  ((jsRecip (1 - randomValue h)).mulC (99/100)).maxC (101/100) |>.minC 100

/-- Association-list lookup modelling JavaScript `Map.get` (and `Map.has`
via `Option.isSome`). -/
def lookupKey {α : Type} (u : String) : List (String × α) → Option α
  | [] => none
  | (k, v) :: rest => if u = k then some v else lookupKey u rest

/-- A bet as stored in `gameState.players` (server.js:322-327). -/
structure Bet where
  usdAmount : ℚ
  cryptoAmount : ℚ
  cryptoType : Crypto
  priceAtTime : ℚ
deriving DecidableEq, Repr

/-- A cashout as stored in `gameState.cashedOut` (server.js:429-433). -/
structure Cashout where
  multiplier : ℚ
  payout : ℚ
  usdPayout : ℚ
deriving DecidableEq, Repr

/-- The server's global `gameState` (server.js:29-38).  `startTime` is not a
field here; elapsed time is instead a parameter of `updateMultiplier`. -/
structure GameState where
  isActive : Bool
  roundId : String
  multiplier : ℚ
  crashPoint : ℚ
  seed : String
  players : List (String × Bet)
  cashedOut : List (String × Cashout)
  isBettingOpen : Bool
deriving DecidableEq, Repr

/-- The initial `gameState` (server.js:29-38); the JS `null` round id and
crash point are modelled by `""` and `0`. -/
def initState : GameState :=
  { isActive := false
    roundId := ""
    multiplier := 1
    crashPoint := 0
    seed := ""
    players := []
    cashedOut := []
    isBettingOpen := false }

/-- server.js:122-148 `startNewRound`: spreads the old state (keeping
`players` and `cashedOut` as is, per the source comment), sets a fresh round
id, resets the multiplier to 1.0, installs the generated crash point and
seed, and closes betting. -/
def startNewRound (s : GameState) (rid sd : String) (cp : ℚ) : GameState :=
  { s with
    isActive := true
    roundId := rid
    multiplier := 1
    crashPoint := cp
    seed := sd
    isBettingOpen := false }

/-- server.js:174-175 `crashGame`: the synchronous state change is exactly
`gameState.isActive = false`; the map resets happen later, in the 5-second
timer modelled by `openBetting`. -/
def crashGame (s : GameState) : GameState :=
  { s with isActive := false }

/-- server.js:192-201 — the 5-second post-crash timer: reset `players` and
`cashedOut` for the new betting phase and open betting. -/
def openBetting (s : GameState) : GameState :=
  { s with players := [], cashedOut := [], isBettingOpen := true }

/-- server.js:204-206 — the 10-second betting timer closes betting (the
subsequent `startNewRound` call is a separate step). -/
def closeBetting (s : GameState) : GameState :=
  { s with isBettingOpen := false }

/-- server.js:151-171 `updateMultiplier`: when the round is active, recompute
`multiplier = 1 + elapsed * 0.1` from elapsed wall-clock seconds, then crash
if `multiplier >= crashPoint`. -/
def updateMultiplier (s : GameState) (elapsed : ℚ) : GameState :=
  if s.isActive then
    let m := 1 + elapsed * (1/10)
    if s.crashPoint ≤ m then crashGame { s with multiplier := m }
    else { s with multiplier := m }
  else s

/-- Error outcomes of the bet endpoint (server.js:261-349). -/
inductive BetError where
  | validation
  | conflict
  | stateClosed
  | insufficientFunds
deriving DecidableEq, Repr

/-- server.js:261-349 `POST /api/bet`, in source order: amount range check,
duplicate-bet check, phase check (`if (gameState.isActive)` rejects — the
comment in the source reads "Only allow bets when round is NOT active"),
balance check, durable debit, insertion into `players`.  The durable debit
(server.js:308-319) is wrapped in `try/catch` whose handler only logs, so
`debitPersisted` does not influence the result.  `cryptoType` validity is
enforced by the `Crypto` type itself.  Prices are positive in the source
(live feed or the fallbacks 65000/3500). -/
def placeBet (s : GameState) (username : String) (usdAmount : ℚ)
    (cryptoType : Crypto) (prices : Crypto → ℚ) (walletBalances : Crypto → ℚ)
    (debitPersisted : Bool) : Except BetError (GameState × Bet) :=
  if usdAmount < 1 ∨ 1000 < usdAmount then Except.error BetError.validation
  else if (lookupKey username s.players).isSome then Except.error BetError.conflict
  else if s.isActive then Except.error BetError.stateClosed
  else
    let cryptoAmount := usdAmount / prices cryptoType
    if walletBalances cryptoType < cryptoAmount then
      Except.error BetError.insufficientFunds
    else
      Except.ok
        ({ s with players :=
            (username,
             { usdAmount := usdAmount
               cryptoAmount := cryptoAmount
               cryptoType := cryptoType
               priceAtTime := prices cryptoType }) :: s.players },
         { usdAmount := usdAmount
           cryptoAmount := cryptoAmount
           cryptoType := cryptoType
           priceAtTime := prices cryptoType })

/-- Error outcomes of the cashout socket handler (server.js:395-454). -/
inductive CashoutError where
  | noBet
  | alreadyCashedOut
deriving DecidableEq, Repr

/-- server.js:395-454 `socket.on("cashout")`, in source order: look the bet
up in `players`, reject a duplicate cashout, compute
`payout = bet.cryptoAmount * gameState.multiplier` and
`usdPayout = payout * cryptoPrices[bet.cryptoType]`, credit the wallet by
`payout` (a `try/catch`-wrapped durable write, so `creditPersisted` does not
influence the result), and insert into `cashedOut`.  The handler performs no
check of `gameState.isActive`. -/
def cashout (s : GameState) (username : String) (prices : Crypto → ℚ)
    (creditPersisted : Bool) : Except CashoutError (GameState × Cashout) :=
  match lookupKey username s.players with
  | none => Except.error CashoutError.noBet
  | some bet =>
    if (lookupKey username s.cashedOut).isSome then
      Except.error CashoutError.alreadyCashedOut
    else
      Except.ok
        ({ s with cashedOut :=
            (username,
             { multiplier := s.multiplier
               payout := bet.cryptoAmount * s.multiplier
               usdPayout := bet.cryptoAmount * s.multiplier * prices bet.cryptoType })
            :: s.cashedOut },
         { multiplier := s.multiplier
           payout := bet.cryptoAmount * s.multiplier
           usdPayout := bet.cryptoAmount * s.multiplier * prices bet.cryptoType })

/-- The fallback price table (server.js:40); also used as the concrete price
snapshot in witnesses. -/
def examplePrices : Crypto → ℚ := fun c =>
  match c with
  | Crypto.BTC => 65000
  | Crypto.ETH => 3500

/-- The starting balances of a freshly created wallet
(server.js:100 and server.js:109): BTC 0.01 and ETH 1.0. -/
def defaultBalances : Crypto → ℚ := fun c =>
  match c with
  | Crypto.BTC => 1/100
  | Crypto.ETH => 1

/-- A bet of 10 USD in BTC at the fallback price 65000:
cryptoAmount = 10 / 65000 = 1/6500. -/
def tenUsdBtcBet : Bet :=
  { usdAmount := 10
    cryptoAmount := 1/6500
    cryptoType := Crypto.BTC
    priceAtTime := 65000 }

/-- A state in the CRASHED display window: the round has crashed at 2.5x
(isActive = false, betting not yet reopened), with one un-cashed-out bet. -/
def crashedState : GameState :=
  { isActive := false
    roundId := "round_1"
    multiplier := 5/2
    crashPoint := 5/2
    seed := "sd1"
    players := [("alice", tenUsdBtcBet)]
    cashedOut := []
    isBettingOpen := false }

/-- The same state during the ACTIVE phase. -/
def activeStateEx : GameState :=
  { crashedState with isActive := true }

/-- A state in the BETTING_OPEN phase with no bets yet. -/
def bettingOpenState : GameState :=
  { initState with roundId := "round_0", isBettingOpen := true }

/-- The cashout the handler records for tenUsdBtcBet at multiplier 2.5 and
BTC price 65000: payout = 1/6500 * 5/2 = 1/2600, usdPayout = 25. -/
def exampleCashout : Cashout :=
  { multiplier := 5/2
    payout := 1/2600
    usdPayout := 25 }

/-!  Numeric facts about the crash-point generator. -/

theorem randomValue_nonneg (h : ℕ) : 0 ≤ randomValue h := by
  unfold randomValue
  positivity

theorem randomValue_le_one_of_le (h : ℕ) (hle : h ≤ 4294967295) :
    randomValue h ≤ 1 := by
  unfold randomValue
  rw [div_le_one (by norm_num)]
  exact_mod_cast hle

theorem randomValue_lt_one_iff (h : ℕ) :
    randomValue h < 1 ↔ h < 4294967295 := by
  unfold randomValue
  rw [div_lt_one (by norm_num)]
  exact_mod_cast Nat.cast_lt (α := ℚ)

/-- C8 counterexample: at the 32-bit hash prefix 0xffffffff the value
randomValue = 4294967295 / 4294967295 equals exactly 1, so it does not lie
in the half-open interval [0, 1) as the claim states. -/
theorem randomValue_reaches_one :
    randomValue 4294967295 = 1 ∧ ¬ randomValue 4294967295 < 1 := by
  constructor
  · unfold randomValue; norm_num
  · unfold randomValue; norm_num

/-- C8 (amended): for every 32-bit hash prefix h ≤ 0xffffffff, randomValue
lies in the closed interval [0, 1], and it is strictly below 1 exactly when
h is strictly below 0xffffffff. -/
theorem randomValue_range (h : ℕ) (hle : h ≤ 4294967295) :
    0 ≤ randomValue h ∧ randomValue h ≤ 1 ∧
      (randomValue h < 1 ↔ h < 4294967295) :=
  ⟨randomValue_nonneg h, randomValue_le_one_of_le h hle, randomValue_lt_one_iff h⟩

/-- Witness for randomValue_range at h = 0. -/
theorem randomValue_range_witness :
    0 ≤ randomValue 0 ∧ randomValue 0 ≤ 1 ∧
      (randomValue 0 < 1 ↔ 0 < 4294967295) :=
  randomValue_range 0 (by norm_num)

/-- C5: for every 32-bit hash prefix, the generated crash point satisfies
1.01 ≤ crashPoint ≤ 100; and because the upper clamp Math.min(·, 100) is
applied after the floor clamp Math.max(1.01, ·), even the prefix that drives
the raw value to +Infinity (h = 0xffffffff, randomValue = 1, division by
zero) yields exactly 100. -/
theorem crashPoint_bounds :
    (∀ h : ℕ, h ≤ 4294967295 →
      101/100 ≤ generateCrashPoint h ∧ generateCrashPoint h ≤ 100) ∧
    generateCrashPoint 4294967295 = 100 := by
  have hmax : generateCrashPoint 4294967295 = 100 := by
    unfold generateCrashPoint randomValue jsRecip
    norm_num [JsNum.mulC, JsNum.maxC, JsNum.minC]
  refine ⟨?_, hmax⟩
  intro h hle
  rcases eq_or_lt_of_le hle with heq | hlt
  · rw [heq, hmax]
    norm_num
  · have hrv : randomValue h < 1 := (randomValue_lt_one_iff h).mpr hlt
    have hne : (1 : ℚ) - randomValue h ≠ 0 := by
      have hpos : (0 : ℚ) < 1 - randomValue h := by linarith
      exact ne_of_gt hpos
    unfold generateCrashPoint jsRecip
    rw [if_neg hne]
    simp only [JsNum.mulC, JsNum.maxC, JsNum.minC]
    constructor
    · exact le_min (le_max_left _ _) (by norm_num)
    · exact min_le_right _ _

/-- Witness for crashPoint_bounds at h = 0 (crash point 1.01) and at the
boundary prefix (crash point 100). -/
theorem crashPoint_bounds_witness :
    (101/100 ≤ generateCrashPoint 0 ∧ generateCrashPoint 0 ≤ 100) ∧
    generateCrashPoint 4294967295 = 100 :=
  ⟨crashPoint_bounds.1 0 (by norm_num), crashPoint_bounds.2⟩

/-!  Inversion lemmas for the two request handlers. -/

/-- On a successful bet the only state change is the insertion of the new
bet into the players map. -/
theorem placeBet_ok_state {s : GameState} {u : String} {a : ℚ} {c : Crypto}
    {p w : Crypto → ℚ} {d : Bool} {s' : GameState} {b : Bet}
    (hok : placeBet s u a c p w d = Except.ok (s', b)) :
    s' = { s with players := (u, b) :: s.players } := by
  simp only [placeBet] at hok
  split_ifs at hok
  injection hok with h
  injection h with h1 h2
  subst h2
  exact h1.symm

/-- On a successful cashout: the player had a bet, had not cashed out yet,
the recorded cashout is computed from that bet and the state's multiplier,
and the only state change is the insertion into the cashedOut map. -/
theorem cashout_ok_spec {s : GameState} {u : String} {p : Crypto → ℚ}
    {ck : Bool} {s' : GameState} {co : Cashout}
    (hok : cashout s u p ck = Except.ok (s', co)) :
    ∃ bet, lookupKey u s.players = some bet ∧
      (lookupKey u s.cashedOut).isSome = false ∧
      co = { multiplier := s.multiplier
             payout := bet.cryptoAmount * s.multiplier
             usdPayout := bet.cryptoAmount * s.multiplier * p bet.cryptoType } ∧
      s' = { s with cashedOut := (u, co) :: s.cashedOut } := by
  unfold cashout at hok
  rcases hb : lookupKey u s.players with _ | bet
  · rw [hb] at hok
    simp at hok
  · rw [hb] at hok
    dsimp only [] at hok
    by_cases hco : (lookupKey u s.cashedOut).isSome = true
    · rw [if_pos hco] at hok
      simp at hok
    · rw [if_neg hco] at hok
      injection hok with h
      injection h with h1 h2
      subst h2
      exact ⟨bet, rfl, by simpa using hco, rfl, h1.symm⟩

/-- C1: the cashout handler performs no phase check, so in a CRASHED state
(isActive = false, multiplier already at the crash point 2.5) a cashout
request still succeeds: it reports success, computes the payout 1/2600 BTC
that the handler credits to the wallet, and inserts the player into the
cashedOut map — contradicting the specification, which requires a StateError
("round not active") with no credit and no insertion. -/
theorem cashout_succeeds_after_crash :
    crashedState.isActive = false ∧
    cashout crashedState "alice" examplePrices true =
      Except.ok ({ crashedState with cashedOut := [("alice", exampleCashout)] },
        exampleCashout) :=
  ⟨rfl, by norm_num [cashout, crashedState, lookupKey, tenUsdBtcBet,
    exampleCashout, examplePrices]⟩

/-- C2 counterexample: in the CRASHED display window (isActive = false and
isBettingOpen = false) a bet from a fresh player is accepted and inserted
into the players map, because the handler only rejects when isActive is
true; the claim states it must be rejected with a StateError. -/
theorem bet_accepted_during_crash_display :
    crashedState.isActive = false ∧ crashedState.isBettingOpen = false ∧
    placeBet crashedState "bob" 10 Crypto.BTC examplePrices defaultBalances true =
      Except.ok ({ crashedState with
          players := ("bob", tenUsdBtcBet) :: crashedState.players },
        tenUsdBtcBet) := by
  have hb : ("bob" : String) ≠ "alice" := by decide
  exact ⟨rfl, rfl, by norm_num [placeBet, crashedState, lookupKey,
    tenUsdBtcBet, examplePrices, defaultBalances, hb]⟩

/-- C2 (amended): the bet handler's phase guard is exactly "reject iff
isActive": a validated, non-duplicate bet is rejected with the StateError
("Betting is closed") precisely when the round is ACTIVE, and is accepted
(inserted into the players map) whenever isActive is false — during
BETTING_OPEN and equally during the CRASHED display window; the
isBettingOpen flag is never consulted. -/
theorem bet_phase_check :
    (∀ (s : GameState) (u : String) (a : ℚ) (c : Crypto) (p w : Crypto → ℚ)
      (d : Bool), 1 ≤ a → a ≤ 1000 → lookupKey u s.players = none →
      s.isActive = true →
      placeBet s u a c p w d = Except.error BetError.stateClosed) ∧
    (∀ (s : GameState) (u : String) (a : ℚ) (c : Crypto) (p w : Crypto → ℚ)
      (d : Bool), 1 ≤ a → a ≤ 1000 → lookupKey u s.players = none →
      s.isActive = false → a / p c ≤ w c →
      placeBet s u a c p w d =
        Except.ok ({ s with players :=
            (u, { usdAmount := a, cryptoAmount := a / p c, cryptoType := c,
                  priceAtTime := p c }) :: s.players },
          { usdAmount := a, cryptoAmount := a / p c, cryptoType := c,
            priceAtTime := p c })) := by
  constructor
  · intro s u a c p w d h1 h2 hlk hA
    have hval : ¬(a < 1 ∨ 1000 < a) := by
      push_neg
      exact ⟨h1, h2⟩
    have hdup : ¬((lookupKey u s.players).isSome = true) := by
      rw [hlk]
      simp
    simp only [placeBet]
    rw [if_neg hval, if_neg hdup, if_pos hA]
  · intro s u a c p w d h1 h2 hlk hA hw
    have hval : ¬(a < 1 ∨ 1000 < a) := by
      push_neg
      exact ⟨h1, h2⟩
    have hdup : ¬((lookupKey u s.players).isSome = true) := by
      rw [hlk]
      simp
    have hact : ¬(s.isActive = true) := by
      rw [hA]
      simp
    have hwal : ¬(w c < a / p c) := not_lt.mpr hw
    simp only [placeBet]
    rw [if_neg hval, if_neg hdup, if_neg hact, if_neg hwal]

/-- Witness for bet_phase_check: rejected in the ACTIVE state, accepted in
the CRASHED display-window state. -/
theorem bet_phase_check_witness :
    placeBet activeStateEx "bob" 10 Crypto.BTC examplePrices defaultBalances
        true = Except.error BetError.stateClosed ∧
    placeBet crashedState "carol" 10 Crypto.BTC examplePrices defaultBalances
        true =
      Except.ok ({ crashedState with players :=
          ("carol", { usdAmount := 10,
                      cryptoAmount := 10 / examplePrices Crypto.BTC,
                      cryptoType := Crypto.BTC,
                      priceAtTime := examplePrices Crypto.BTC })
          :: crashedState.players },
        { usdAmount := 10, cryptoAmount := 10 / examplePrices Crypto.BTC,
          cryptoType := Crypto.BTC,
          priceAtTime := examplePrices Crypto.BTC }) := by
  exact ⟨bet_phase_check.1 activeStateEx "bob" 10 Crypto.BTC examplePrices
      defaultBalances true (by norm_num) (by norm_num) (by rfl) rfl,
    bet_phase_check.2 crashedState "carol" 10 Crypto.BTC examplePrices
      defaultBalances true (by norm_num) (by norm_num) (by rfl) rfl
      (by norm_num [examplePrices, defaultBalances])⟩

/-- C4 counterexample: with the durable debit failing to persist
(debitPersisted = false), the bet endpoint still inserts the bet into the
players map and reports success, because the failure is swallowed by the
try/catch at server.js:308-319; the claim states the bet must not be
recorded as placed. -/
theorem bet_recorded_despite_debit_failure :
    placeBet bettingOpenState "carol" 10 Crypto.BTC examplePrices
        defaultBalances false =
      Except.ok ({ bettingOpenState with
          players := [("carol", tenUsdBtcBet)] }, tenUsdBtcBet) := by
  norm_num [placeBet, bettingOpenState, initState, lookupKey, tenUsdBtcBet,
    examplePrices, defaultBalances]

/-- C4 (amended): a durable-debit persistence failure is caught and only
logged, so the outcome of the bet endpoint is entirely independent of
whether the debit persisted; on any successful outcome — including with the
debit not persisted — the bet is inserted into the players map and reported
as success. -/
theorem placeBet_debit_failure_still_records :
    (∀ (s : GameState) (u : String) (a : ℚ) (c : Crypto) (p w : Crypto → ℚ)
      (d d' : Bool), placeBet s u a c p w d = placeBet s u a c p w d') ∧
    (∀ (s : GameState) (u : String) (a : ℚ) (c : Crypto) (p w : Crypto → ℚ)
      (s' : GameState) (b : Bet),
      placeBet s u a c p w false = Except.ok (s', b) →
      s' = { s with players := (u, b) :: s.players }) :=
  ⟨fun _ _ _ _ _ _ _ _ => rfl,
   fun _ _ _ _ _ _ _ _ hok => placeBet_ok_state hok⟩

/-- Witness for placeBet_debit_failure_still_records at the concrete
BETTING_OPEN state. -/
theorem placeBet_debit_failure_witness :
    placeBet bettingOpenState "carol" 10 Crypto.BTC examplePrices
        defaultBalances false =
      placeBet bettingOpenState "carol" 10 Crypto.BTC examplePrices
        defaultBalances true ∧
    ({ bettingOpenState with players := [("carol", tenUsdBtcBet)] }
        : GameState) =
      { bettingOpenState with
        players := ("carol", tenUsdBtcBet) :: bettingOpenState.players } := by
  exact ⟨placeBet_debit_failure_still_records.1 bettingOpenState "carol" 10
      Crypto.BTC examplePrices defaultBalances false true,
    placeBet_debit_failure_still_records.2 bettingOpenState "carol" 10
      Crypto.BTC examplePrices defaultBalances
      { bettingOpenState with players := [("carol", tenUsdBtcBet)] }
      tenUsdBtcBet
      (by norm_num [placeBet, bettingOpenState, initState, lookupKey,
        tenUsdBtcBet, examplePrices, defaultBalances])⟩

/-- C6: on every successful cashout the recorded payout equals
bet.cryptoAmount times the state's multiplier at the instant of processing,
and usdPayout equals payout times the cashout-time price of the bet's
crypto type (the bet's own priceAtTime is not used). -/
theorem cashout_payout_law :
    ∀ (s : GameState) (u : String) (p : Crypto → ℚ) (ck : Bool)
      (s' : GameState) (co : Cashout),
      cashout s u p ck = Except.ok (s', co) →
      ∃ bet, lookupKey u s.players = some bet ∧
        co.multiplier = s.multiplier ∧
        co.payout = bet.cryptoAmount * s.multiplier ∧
        co.usdPayout = co.payout * p bet.cryptoType := by
  intro s u p ck s' co hok
  obtain ⟨bet, hb, _, hco, _⟩ := cashout_ok_spec hok
  subst hco
  exact ⟨bet, hb, rfl, rfl, rfl⟩

/-- A price snapshot different from the bet-time prices, to exhibit that
usdPayout is computed from the cashout-time price. -/
def cashoutPrices : Crypto → ℚ := fun c =>
  match c with
  | Crypto.BTC => 70000
  | Crypto.ETH => 3000

/-- An ACTIVE round at multiplier 2 with one open bet placed at BTC price
65000. -/
def activeRoundState : GameState :=
  { isActive := true
    roundId := "round_2"
    multiplier := 2
    crashPoint := 3
    seed := "sd2"
    players := [("dave", tenUsdBtcBet)]
    cashedOut := []
    isBettingOpen := false }

/-- The cashout recorded for tenUsdBtcBet at multiplier 2 and cashout-time
BTC price 70000 (not the bet-time price 65000):
payout = 1/6500 * 2 = 1/3250, usdPayout = 1/3250 * 70000 = 280/13. -/
def daveCashout : Cashout :=
  { multiplier := 2
    payout := 1/3250
    usdPayout := 280/13 }

/-- Witness for cashout_payout_law, at a state whose cashout-time BTC price
(70000) differs from the bet-time price (65000). -/
theorem cashout_payout_law_witness :
    ∃ bet, lookupKey "dave" activeRoundState.players = some bet ∧
      daveCashout.multiplier = activeRoundState.multiplier ∧
      daveCashout.payout = bet.cryptoAmount * activeRoundState.multiplier ∧
      daveCashout.usdPayout = daveCashout.payout * cashoutPrices bet.cryptoType :=
  cashout_payout_law activeRoundState "dave" cashoutPrices true
    { activeRoundState with cashedOut := [("dave", daveCashout)] }
    daveCashout
    (by norm_num [cashout, activeRoundState, lookupKey, tenUsdBtcBet,
      daveCashout, cashoutPrices])

/-- A value of a JSON payload field, as broadcast over the socket. -/
inductive JVal where
  | str (s : String)
  | num (q : ℚ)
deriving DecidableEq, Repr

/-- server.js:141-144 — the object emitted as the roundStart broadcast:
exactly the keys roundId and multiplier (value 1.0). -/
def roundStartPayload (s : GameState) : List (String × JVal) :=
  [("roundId", JVal.str s.roundId), ("multiplier", JVal.num 1)]

/-- server.js:180-183 — the object emitted as the roundCrash broadcast:
exactly the keys roundId and crashPoint. -/
def roundCrashPayload (s : GameState) : List (String × JVal) :=
  [("roundId", JVal.str s.roundId), ("crashPoint", JVal.num s.crashPoint)]

/-- C3: the commit-reveal protocol is absent from the broadcasts — the
roundStart payload contains no seedHash key and the roundCrash payload
contains no seed key, for every round; the seed only reaches the durable
rounds archive (server.js:213-220), never the clients. -/
theorem broadcast_payloads_omit_seed :
    ∀ s : GameState,
      lookupKey "seedHash" (roundStartPayload s) = none ∧
      lookupKey "seed" (roundCrashPayload s) = none := by
  intro s
  exact ⟨rfl, rfl⟩

/-- A wallet document (server.js:95-119). -/
structure Wallet where
  username : String
  balances : Crypto → ℚ

/-- server.js:95-119 `getOrCreateWallet`: with no database connection a mock
wallet with the default balances is returned; otherwise the findOne lookup
runs inside a try block — a missing wallet is created with the default
balances, and any thrown error is caught, returning the default wallet.
`dbPresent` models the truthiness of the global `db`; `findOneResult` the
outcome of `db.collection("wallets").findOne` (error = the lookup threw);
`insertThrows` whether the insertOne of a fresh wallet threw (both branches
yield the same default wallet, one via the catch handler). -/
def getOrCreateWallet (dbPresent : Bool)
    (findOneResult : Except Unit (Option Wallet)) (insertThrows : Bool)
    (username : String) : Wallet :=
  if !dbPresent then { username := username, balances := defaultBalances }
  else
    match findOneResult with
    | Except.error _ => { username := username, balances := defaultBalances }
    | Except.ok (some w) => w
    | Except.ok none =>
        if insertThrows then { username := username, balances := defaultBalances }
        else { username := username, balances := defaultBalances }

/-- C9: getOrCreateWallet is total at its interface — when the database is
absent, and equally when the lookup throws, it returns a wallet with the
default starting balances rather than propagating an error; and those
defaults are BTC 0.01 and ETH 1.0. -/
theorem getOrCreateWallet_total :
    (∀ (fr : Except Unit (Option Wallet)) (it : Bool) (u : String),
      getOrCreateWallet false fr it u =
        { username := u, balances := defaultBalances }) ∧
    (∀ (it : Bool) (u : String),
      getOrCreateWallet true (Except.error ()) it u =
        { username := u, balances := defaultBalances }) ∧
    defaultBalances Crypto.BTC = 1/100 ∧ defaultBalances Crypto.ETH = 1 :=
  ⟨fun _ _ _ => rfl, fun _ _ => rfl, rfl, rfl⟩

/-!  The round lifecycle as a transition system.

The cashout socket handler is an async function: it runs its checks and
computes `payout`/`usdPayout` synchronously, then — when a database is
connected — suspends at the awaited wallet credit (server.js:417-426)
before performing `gameState.cashedOut.set` (server.js:429-433).  Other
events, in particular the 5-second post-crash timer that replaces both maps
with fresh ones (server.js:192-195), can run during that suspension.  The
transition system therefore splits a cashout into a begin step (checks and
capture, no mutation) and a resume step (the insertion, reading the
then-current multiplier exactly as the source line 430 does).  The other
handlers are modelled as single steps — one uninterrupted run, which is
always among the schedulings the event loop permits — so every trace of
this relation is a behaviour of the program. -/

/-- The invariant claimed by the spec: every key of the cashedOut map is a
key of the players map. -/
def CashoutsSubsetBets (s : GameState) : Prop :=
  ∀ u : String, (lookupKey u s.cashedOut).isSome = true →
    (lookupKey u s.players).isSome = true

/-- A cashout handler suspended at its awaited wallet credit
(server.js:417-426): the username together with the payout and usdPayout
values captured before the await.  The Cashout record itself is only built
after the await, reading `gameState.multiplier` again at that later moment
(server.js:429-433). -/
structure PendingCashout where
  username : String
  payout : ℚ
  usdPayout : ℚ
deriving DecidableEq, Repr

/-- The game state together with the in-flight cashout handlers suspended
at their awaited durable credit. -/
structure AsyncState where
  game : GameState
  pending : List PendingCashout
deriving DecidableEq, Repr

/-- The server's state at startup: the initial gameState, no in-flight
handlers. -/
def initAsyncState : AsyncState :=
  { game := initState, pending := [] }

/-- One transition of the game loop: a round start, a multiplier tick
(which may crash the round), the post-crash timer that resets the maps and
reopens betting, the betting timer that closes it, a successful bet, or one
of the two halves of a cashout — the synchronous prefix up to the awaited
wallet credit, and its continuation after the await.  Failed requests
mutate nothing and need no transition.  Each constructor carries its
successor state as an explicit equation. -/
inductive Step : AsyncState → AsyncState → Prop where
  | start (s s' : AsyncState) (rid sd : String) (cp : ℚ)
      (h : s' = { s with game := startNewRound s.game rid sd cp }) :
      Step s s'
  | tick (s s' : AsyncState) (e : ℚ)
      (h : s' = { s with game := updateMultiplier s.game e }) : Step s s'
  | openB (s s' : AsyncState)
      (h : s' = { s with game := openBetting s.game }) : Step s s'
  | closeB (s s' : AsyncState)
      (h : s' = { s with game := closeBetting s.game }) : Step s s'
  | bet (s s' : AsyncState) (u : String) (a : ℚ) (c : Crypto)
      (p w : Crypto → ℚ) (d : Bool) (g' : GameState) (b : Bet)
      (hok : placeBet s.game u a c p w d = Except.ok (g', b))
      (h : s' = { s with game := g' }) : Step s s'
  | cashBegin (s s' : AsyncState) (u : String) (p : Crypto → ℚ) (bet : Bet)
      (hb : lookupKey u s.game.players = some bet)
      (hnc : (lookupKey u s.game.cashedOut).isSome = false)
      (h : s' = { s with
                  pending := s.pending ++
                    [{ username := u,
                       payout := bet.cryptoAmount * s.game.multiplier,
                       usdPayout := bet.cryptoAmount * s.game.multiplier *
                         p bet.cryptoType }] }) : Step s s'
  | cashResume (s s' : AsyncState) (pc : PendingCashout)
      (rest : List PendingCashout) (hp : s.pending = pc :: rest)
      (h : s' = { game :=
                    { s.game with
                      cashedOut :=
                        (pc.username,
                          { multiplier := s.game.multiplier,
                            payout := pc.payout,
                            usdPayout := pc.usdPayout }) :: s.game.cashedOut },
                  pending := rest }) : Step s s'

/-- States reachable from the server's initial state. -/
def Reachable (s : AsyncState) : Prop :=
  Relation.ReflTransGen Step initAsyncState s

/-- Race trace, step 1: alice's 10 USD BTC bet is placed before the round
(isActive is false at startup, so the bet endpoint accepts it). -/
def raceState1 : AsyncState :=
  { game := { initState with players := [("alice", tenUsdBtcBet)] }
    pending := [] }

/-- Race trace, step 2: the round starts with crash point 2.5. -/
def raceState2 : AsyncState :=
  { game :=
    { isActive := true
      roundId := "round_1"
      multiplier := 1
      crashPoint := 5/2
      seed := "sd1"
      players := [("alice", tenUsdBtcBet)]
      cashedOut := []
      isBettingOpen := false }
    pending := [] }

/-- Race trace, step 3: the tick at 15 elapsed seconds stores multiplier
1 + 15 * 0.1 = 2.5 and crashes the round. -/
def raceState3 : AsyncState :=
  { game :=
    { isActive := false
      roundId := "round_1"
      multiplier := 5/2
      crashPoint := 5/2
      seed := "sd1"
      players := [("alice", tenUsdBtcBet)]
      cashedOut := []
      isBettingOpen := false }
    pending := [] }

/-- Race trace, step 4: alice's cashout passes both checks (her bet is
still in players, she is not in cashedOut — and there is no phase check)
and suspends at the awaited wallet credit with payout 1/2600 and usdPayout
25 captured. -/
def raceState4 : AsyncState :=
  { game := raceState3.game
    pending := [{ username := "alice", payout := 1/2600, usdPayout := 25 }] }

/-- Race trace, step 5: while the credit is pending, the 5-second
post-crash timer fires, replacing both maps with fresh empty ones and
opening betting. -/
def raceState5 : AsyncState :=
  { game :=
    { isActive := false
      roundId := "round_1"
      multiplier := 5/2
      crashPoint := 5/2
      seed := "sd1"
      players := []
      cashedOut := []
      isBettingOpen := true }
    pending := [{ username := "alice", payout := 1/2600, usdPayout := 25 }] }

/-- Race trace, final state: the suspended cashout resumes and inserts
alice into the fresh cashedOut map of the new betting window, so cashedOut
contains alice while players is empty — and this state persists through
the entire betting window. -/
def raceFinalState : AsyncState :=
  { game :=
    { isActive := false
      roundId := "round_1"
      multiplier := 5/2
      crashPoint := 5/2
      seed := "sd1"
      players := []
      cashedOut := [("alice", exampleCashout)]
      isBettingOpen := true }
    pending := [] }

/-- The race interleaving is reachable from startup, step by step. -/
theorem raceFinalState_reachable : Reachable raceFinalState := by
  have s1 : Step initAsyncState raceState1 :=
    Step.bet initAsyncState raceState1 "alice" 10 Crypto.BTC examplePrices
      defaultBalances true raceState1.game tenUsdBtcBet
      (by norm_num [initAsyncState, raceState1, placeBet, initState,
        lookupKey, tenUsdBtcBet, examplePrices, defaultBalances])
      (by rfl)
  have s2 : Step raceState1 raceState2 :=
    Step.start raceState1 raceState2 "round_1" "sd1" (5/2)
      (by norm_num [raceState1, raceState2, startNewRound, initState])
  have s3 : Step raceState2 raceState3 :=
    Step.tick raceState2 raceState3 15
      (by norm_num [raceState2, raceState3, updateMultiplier, crashGame])
  have s4 : Step raceState3 raceState4 :=
    Step.cashBegin raceState3 raceState4 "alice" examplePrices tenUsdBtcBet
      (by rfl) (by rfl)
      (by norm_num [raceState3, raceState4, tenUsdBtcBet, examplePrices])
  have s5 : Step raceState4 raceState5 :=
    Step.openB raceState4 raceState5
      (by norm_num [raceState3, raceState4, raceState5, openBetting])
  have s6 : Step raceState5 raceFinalState :=
    Step.cashResume raceState5 raceFinalState
      { username := "alice", payout := 1/2600, usdPayout := 25 } []
      (by rfl)
      (by norm_num [raceState5, raceFinalState, exampleCashout])
  exact Relation.ReflTransGen.tail
    (Relation.ReflTransGen.tail
      (Relation.ReflTransGen.tail
        (Relation.ReflTransGen.tail
          (Relation.ReflTransGen.tail
            (Relation.ReflTransGen.tail Relation.ReflTransGen.refl s1)
            s2)
          s3)
        s4)
      s5)
    s6

/-- C7: the invariant "cashouts is a subset of bets at every instant" is
false of the code.  A cashout that passes its checks and suspends at the
awaited wallet credit (server.js:417-426) can resume after the post-crash
timer (server.js:192-195) has replaced both maps: the game loop reaches —
and keeps, through the whole following betting window — a state whose
cashedOut map contains alice while its players map is empty.  The spec
states the invariant the code was meant to maintain, so this is a code
bug, not a spec error. -/
theorem cashout_race_breaks_subset :
    Reachable raceFinalState ∧
    raceFinalState.game.players = [] ∧
    (lookupKey "alice" raceFinalState.game.cashedOut).isSome = true ∧
    ¬ CashoutsSubsetBets raceFinalState.game := by
  refine ⟨raceFinalState_reachable, rfl, rfl, ?_⟩
  intro hinv
  have h := hinv "alice" rfl
  simp [raceFinalState, lookupKey] at h

/-- A concrete ACTIVE state about to crash: crash point 2, so the tick at
elapsed 10 seconds (multiplier 1 + 10 * 0.1 = 2) crashes the round. -/
def aboutToCrashState : GameState :=
  { initState with isActive := true, roundId := "round_3", crashPoint := 2 }

/-- C10: the crash transition changes only the isActive flag — on a
crashing tick the resulting state has isActive = false, its multiplier is
the freshly computed 1 + elapsed * 0.1, which is at least the crash point,
and players and cashedOut are untouched; crashGame itself preserves the
multiplier and both maps while clearing only isActive; and the stored
multiplier keeps that value until startNewRound resets it to 1.0. -/
theorem crash_frame_conditions :
    (∀ (s : GameState) (e : ℚ), s.isActive = true →
      s.crashPoint ≤ 1 + e * (1/10) →
      (updateMultiplier s e).isActive = false ∧
      (updateMultiplier s e).multiplier = 1 + e * (1/10) ∧
      s.crashPoint ≤ (updateMultiplier s e).multiplier ∧
      (updateMultiplier s e).players = s.players ∧
      (updateMultiplier s e).cashedOut = s.cashedOut) ∧
    (∀ s : GameState,
      (crashGame s).isActive = false ∧
      (crashGame s).multiplier = s.multiplier ∧
      (crashGame s).players = s.players ∧
      (crashGame s).cashedOut = s.cashedOut ∧
      (crashGame s).roundId = s.roundId ∧
      (crashGame s).crashPoint = s.crashPoint) ∧
    (∀ (s : GameState) (rid sd : String) (cp : ℚ),
      (startNewRound s rid sd cp).multiplier = 1) := by
  refine ⟨?_, ?_, ?_⟩
  · intro s e hA hC
    simp only [updateMultiplier, crashGame]
    split_ifs
    exact ⟨rfl, rfl, hC, rfl, rfl⟩
  · intro s
    exact ⟨rfl, rfl, rfl, rfl, rfl, rfl⟩
  · intro s rid sd cp
    rfl

/-- Witness for crash_frame_conditions at the concrete about-to-crash state
with elapsed = 10 seconds. -/
theorem crash_frame_witness :
    ((updateMultiplier aboutToCrashState 10).isActive = false ∧
      (updateMultiplier aboutToCrashState 10).multiplier = 1 + 10 * (1/10) ∧
      aboutToCrashState.crashPoint ≤
        (updateMultiplier aboutToCrashState 10).multiplier ∧
      (updateMultiplier aboutToCrashState 10).players =
        aboutToCrashState.players ∧
      (updateMultiplier aboutToCrashState 10).cashedOut =
        aboutToCrashState.cashedOut) ∧
    ((crashGame initState).multiplier = initState.multiplier) ∧
    (startNewRound initState "round_4" "sd4" 2).multiplier = 1 :=
  ⟨crash_frame_conditions.1 aboutToCrashState 10 rfl (by norm_num [aboutToCrashState, initState]),
   (crash_frame_conditions.2.1 initState).2.1,
   crash_frame_conditions.2.2 initState "round_4" "sd4" 2⟩

end CryptoCrash
